import Mathlib

/-!
Shallow embedding of the rust-secp256k1 binding core (src/secp256k1.rs):
typed wrappers `Signature`, `Message`, the error taxonomy, and the engine
operations `sign`, `sign_compact`, `recover_compact`, `verify`,
`verify_raw`.  The external curve arithmetic provider (declared in the
repository's `ffi` module, implemented outside the repository) is
abstracted as a record of primitives; the `key` and `constants` modules
are not under `src/` and are modelled from the spec where needed.

Byte buffers are `List Nat`; writes through raw pointers into fixed-size
buffers are modelled by `writeInto`.  Panics (`assert!`, `assert_eq!`,
`unreachable!`) are modelled by an outer `Option`: `none` means the Rust
code aborts instead of returning.
-/

namespace Secp

/-- Modelled from the spec: `constants::MESSAGE_SIZE = 32` (the `constants`
module is not under `src/`). -/
def MESSAGE_SIZE : Nat := 32

/-- Modelled from the spec: `constants::MAX_SIGNATURE_SIZE`, the standard
(DER-style) encoding upper bound; the repository's tests accept a 72-byte
buffer, so the bound is 72. -/
def MAX_SIGNATURE_SIZE : Nat := 72

/-- Modelled from the spec: `constants::MAX_COMPACT_SIGNATURE_SIZE = 64`. -/
def MAX_COMPACT_SIGNATURE_SIZE : Nat := 64

/-- Modelled from the spec: compressed public keys encode in 33 bytes,
uncompressed in 65. -/
def pubkeyLen (compressed : Bool) : Nat := if compressed then 33 else 65

/-- The closed error taxonomy of `enum Error` in src/secp256k1.rs. -/
inductive Error where
  | IncorrectSignature
  | InvalidMessage
  | InvalidPublicKey
  | InvalidSignature
  | InvalidSecretKey
  | SignFailed
  | Unknown
  deriving DecidableEq, Repr

/-- Writing the bytes `out` into a fixed-size buffer `buf` starting at
offset 0, as `copy_nonoverlapping`/the FFI out-pointers do: the first
`out.length` cells are overwritten, the rest keep their contents, and the
buffer's size never changes. -/
def writeInto (buf out : List Nat) : List Nat :=
  out.take buf.length ++ buf.drop out.length

/-- `struct Signature(usize, [u8; MAX_SIGNATURE_SIZE])`: a logical length
plus a fixed-size backing buffer. -/
structure Signature where
  len : Nat
  data : List Nat
  deriving DecidableEq, Repr

/-- `Signature::from_slice`: accepts slices of length at most
`MAX_SIGNATURE_SIZE`, copying them into a zeroed backing buffer; longer
slices fail with `InvalidSignature`. -/
def Signature.from_slice (d : List Nat) : Except Error Signature :=
  if d.length ≤ MAX_SIGNATURE_SIZE then
    .ok ⟨d.length, writeInto (List.replicate MAX_SIGNATURE_SIZE 0) d⟩
  else
    .error Error.InvalidSignature

/-- `impl ops::Index<ops::RangeFull> for Signature`: returns `&dat[..]`,
the WHOLE backing buffer, ignoring the logical length field. -/
def Signature.index_full (s : Signature) : List Nat := s.data

/-- `impl ops::Index<ops::Range<usize>> for Signature`: `&dat[start..stop]`. -/
def Signature.index_range (s : Signature) (start stop : Nat) : List Nat :=
  (s.data.take stop).drop start

/-- `impl ops::Index<ops::RangeFrom<usize>> for Signature`: `&dat[start..]`. -/
def Signature.index_from (s : Signature) (start : Nat) : List Nat :=
  s.data.drop start

/-- `struct Message([u8; MESSAGE_SIZE])`. -/
structure Message where
  data : List Nat
  deriving DecidableEq, Repr

/-- `Message::from_slice`: accepts exactly `MESSAGE_SIZE`-byte slices,
copying them into a zeroed buffer; anything else fails with
`InvalidMessage`. -/
def Message.from_slice (d : List Nat) : Except Error Message :=
  if d.length = MESSAGE_SIZE then
    .ok ⟨writeInto (List.replicate MESSAGE_SIZE 0) d⟩
  else
    .error Error.InvalidMessage

/-- Modelled from the spec: `key::SecretKey`, a 32-byte scalar wrapper
(the `key` module is not under `src/`); only its byte buffer matters to
the operations embedded here. -/
structure SecretKey where
  data : List Nat
  deriving DecidableEq, Repr

/-- Modelled from the spec: `key::PublicKey`, a curve-point encoding
tagged compressed (33 bytes) or uncompressed (65 bytes). -/
structure PublicKey where
  compressed : Bool
  bytes : List Nat
  deriving DecidableEq, Repr

/-- Modelled from the spec: `key::PublicKey::new(compressed)` builds a
zeroed key buffer of the form's encoded size. -/
def PublicKey.new (compressed : Bool) : PublicKey :=
  ⟨compressed, List.replicate (pubkeyLen compressed) 0⟩

/-- `pk.len()`: the encoded length of the public key. -/
def PublicKey.length (pk : PublicKey) : Nat := pk.bytes.length

/-- `struct RecoveryId(i32)`. -/
structure RecoveryId where
  val : Int
  deriving DecidableEq, Repr

/-- Modelled from the spec: the curve arithmetic provider boundary (the
`ffi` module declares these as foreign functions; the implementation is
external).  `ecdsa_sign` returns the bytes written on success (`none`
models a return value other than 1); `ecdsa_sign_compact` additionally
returns the recovery id; `ecdsa_recover_compact` returns the public-key
bytes written and the reported length; `ecdsa_verify` returns the
documented tri-state-plus-one integer code; `derive_pubkey` is
`key::PublicKey::from_secret_key`'s underlying scalar multiplication. -/
structure Provider where
  ecdsa_verify : List Nat → List Nat → List Nat → Int
  ecdsa_sign : List Nat → List Nat → Option (List Nat)
  ecdsa_sign_compact : List Nat → List Nat → Option (List Nat × Int)
  ecdsa_recover_compact : List Nat → List Nat → Int → Bool → Option (List Nat × Nat)
  derive_pubkey : List Nat → Bool → List Nat

/-- Modelled from the spec: `key::PublicKey::from_secret_key(sk, compressed)`
derives the public key by the provider's scalar multiplication in the
requested encoding. -/
def PublicKey.from_secret_key (P : Provider) (sk : SecretKey) (compressed : Bool) : PublicKey :=
  ⟨compressed, P.derive_pubkey sk.data compressed⟩

/-- `Secp256k1::generate_keypair`: draws a fresh valid secret scalar and
derives its public key.  Modelled from the spec: the random draw from the
engine's nonce source (`key::SecretKey::new`, not under `src/`) is
abstracted as the parameter `sk`; the pairing with
`PublicKey::from_secret_key` is as in src/secp256k1.rs lines 249-254. -/
def generate_keypair (P : Provider) (sk : SecretKey) (compressed : Bool) :
    SecretKey × PublicKey :=
  (sk, PublicKey.from_secret_key P sk compressed)

/-- `Secp256k1::sign` (src/secp256k1.rs lines 257-272): calls the
provider's sign primitive on a zeroed `MAX_SIGNATURE_SIZE` buffer; a
non-1 return is `SignFailed`; then `assert!(len <= MAX_SIGNATURE_SIZE)`
(modelled as `none` when it fires) and the signature is returned with the
provider-reported length. -/
def sign (P : Provider) (msg : Message) (sk : SecretKey) :
    Option (Except Error Signature) :=
  match P.ecdsa_sign msg.data sk.data with
  | none => some (.error Error.SignFailed)
  | some out =>
    if out.length ≤ MAX_SIGNATURE_SIZE then
      some (.ok ⟨out.length, writeInto (List.replicate MAX_SIGNATURE_SIZE 0) out⟩)
    else
      none

/-- `Secp256k1::sign_compact` (src/secp256k1.rs lines 275-288): a non-1
provider return is `SignFailed`; on success the logical length is
hard-coded to `MAX_COMPACT_SIGNATURE_SIZE` and the provider's recovery id
is wrapped unchecked. -/
def sign_compact (P : Provider) (msg : Message) (sk : SecretKey) :
    Option (Except Error (Signature × RecoveryId)) :=
  match P.ecdsa_sign_compact msg.data sk.data with
  | none => some (.error Error.SignFailed)
  | some (out, recid) =>
    some (.ok (⟨MAX_COMPACT_SIGNATURE_SIZE,
                writeInto (List.replicate MAX_SIGNATURE_SIZE 0) out⟩,
               ⟨recid⟩))

/-- `Secp256k1::recover_compact` (src/secp256k1.rs lines 292-309): builds
a zeroed key of the requested form, lets the provider write into it; a
non-1 return is `InvalidSignature`; then `assert_eq!(len, pk.len())`
(modelled as `none` when it fires). -/
def recover_compact (P : Provider) (msg : Message) (sig : List Nat)
    (compressed : Bool) (recid : RecoveryId) : Option (Except Error PublicKey) :=
  match P.ecdsa_recover_compact msg.data sig recid.val compressed with
  | none => some (.error Error.InvalidSignature)
  | some (out, len) =>
    if len = (PublicKey.mk compressed (writeInto (PublicKey.new compressed).bytes out)).length
    then some (.ok ⟨compressed, writeInto (PublicKey.new compressed).bytes out⟩)
    else none

/-- `Secp256k1::verify_raw` (src/secp256k1.rs lines 324-339): maps the
provider's integer codes 1, 0, -1, -2 to
`Ok`/`IncorrectSignature`/`InvalidPublicKey`/`InvalidSignature`; any
other code hits `unreachable!` (modelled as `none`). -/
def verify_raw (P : Provider) (msg : Message) (sig : List Nat) (pk : PublicKey) :
    Option (Except Error Unit) :=
  if P.ecdsa_verify msg.data sig pk.bytes = 1 then some (.ok ())
  else if P.ecdsa_verify msg.data sig pk.bytes = 0 then
    some (.error Error.IncorrectSignature)
  else if P.ecdsa_verify msg.data sig pk.bytes = -1 then
    some (.error Error.InvalidPublicKey)
  else if P.ecdsa_verify msg.data sig pk.bytes = -2 then
    some (.error Error.InvalidSignature)
  else none

/-- `Secp256k1::verify` (src/secp256k1.rs lines 316-319): delegates to
`verify_raw` on `&sig[..]`, the full-range slice of the signature. -/
def verify (P : Provider) (msg : Message) (sig : Signature) (pk : PublicKey) :
    Option (Except Error Unit) :=
  verify_raw P msg sig.index_full pk

/-- Concrete 32-byte message used to evaluate the operations. -/
def demoMsg : Message := ⟨List.replicate MESSAGE_SIZE 0⟩

/-- Concrete 32-byte secret key used to evaluate the operations. -/
def demoSk : SecretKey := ⟨List.replicate 32 1⟩

/-- Concrete provider satisfying the boundary contract, used to evaluate
the engine operations on closed inputs: verification always reports 1,
signing yields a 2-byte signature, compact signing a 64-byte signature
with recovery id 1, and recovery returns exactly the bytes that
`derive_pubkey` yields, with the correct reported length. -/
def demoProvider : Provider where
  ecdsa_verify := fun _ _ _ => 1
  ecdsa_sign := fun _ _ => some [7, 8]
  ecdsa_sign_compact := fun _ _ => some (List.replicate 64 5, 1)
  ecdsa_recover_compact := fun _ _ _ c => some (List.replicate (pubkeyLen c) 9, pubkeyLen c)
  derive_pubkey := fun _ c => List.replicate (pubkeyLen c) 9

lemma writeInto_length (buf out : List Nat) :
    (writeInto buf out).length = buf.length := by
  simp only [writeInto, List.length_append, List.length_take, List.length_drop]
  omega

lemma writeInto_replicate_zero (n : Nat) (out : List Nat) (h : out.length ≤ n) :
    writeInto (List.replicate n 0) out = out ++ List.replicate (n - out.length) 0 := by
  simp only [writeInto, List.length_replicate, List.take_of_length_le h,
    List.drop_replicate]

lemma writeInto_replicate_self (n : Nat) (out : List Nat) (h : out.length = n) :
    writeInto (List.replicate n 0) out = out := by
  rw [writeInto_replicate_zero n out (Nat.le_of_eq h), h, Nat.sub_self]
  simp

/-- Claim C2: `verify_raw` returns `Ok(())` iff the provider's verify
primitive returns 1, `Err(IncorrectSignature)` iff it returns 0,
`Err(InvalidPublicKey)` iff it returns -1, `Err(InvalidSignature)` iff it
returns -2, and whenever the provider honours its contract of returning
one of these four codes, `verify_raw` returns (it does not reach the
`unreachable!` branch). -/
theorem C2_verify_raw_mapping (P : Provider) (msg : Message) (sig : List Nat)
    (pk : PublicKey) :
    (verify_raw P msg sig pk = some (.ok ()) ↔
      P.ecdsa_verify msg.data sig pk.bytes = 1) ∧
    (verify_raw P msg sig pk = some (.error Error.IncorrectSignature) ↔
      P.ecdsa_verify msg.data sig pk.bytes = 0) ∧
    (verify_raw P msg sig pk = some (.error Error.InvalidPublicKey) ↔
      P.ecdsa_verify msg.data sig pk.bytes = -1) ∧
    (verify_raw P msg sig pk = some (.error Error.InvalidSignature) ↔
      P.ecdsa_verify msg.data sig pk.bytes = -2) ∧
    (P.ecdsa_verify msg.data sig pk.bytes = 1 ∨
        P.ecdsa_verify msg.data sig pk.bytes = 0 ∨
        P.ecdsa_verify msg.data sig pk.bytes = -1 ∨
        P.ecdsa_verify msg.data sig pk.bytes = -2 →
      (verify_raw P msg sig pk).isSome = true) := by
  unfold verify_raw
  refine ⟨?_, ?_, ?_, ?_, ?_⟩ <;> split_ifs with h1 h2 h3 h4 <;> simp_all

/-- Claim C2 witness: with the concrete provider, whose verify primitive
returns 1, `verify_raw` on concrete inputs returns `Ok(())`. -/
theorem C2_verify_raw_mapping_witness :
    verify_raw demoProvider demoMsg (List.replicate 72 0) (PublicKey.new true) =
      some (.ok ()) :=
  (C2_verify_raw_mapping demoProvider demoMsg (List.replicate 72 0)
    (PublicKey.new true)).1.mpr rfl

/-- Claim C3: when the provider's compact-sign primitive succeeds,
`sign_compact` returns a signature with logical length hard-coded to
`MAX_COMPACT_SIGNATURE_SIZE` (64), whatever the provider wrote, together
with the provider's recovery id, which lies in [0, 3] whenever the
provider honours its contract; when the primitive fails, the result is
`Err(SignFailed)`. -/
theorem C3_sign_compact_mapping (P : Provider) (msg : Message) (sk : SecretKey) :
    (sign_compact P msg sk = some (.error Error.SignFailed) ↔
      P.ecdsa_sign_compact msg.data sk.data = none) ∧
    (∀ out recid, P.ecdsa_sign_compact msg.data sk.data = some (out, recid) →
      ∃ s rid, sign_compact P msg sk = some (.ok (s, rid)) ∧
        s.len = MAX_COMPACT_SIGNATURE_SIZE ∧ rid.val = recid ∧
        (0 ≤ recid ∧ recid ≤ 3 → 0 ≤ rid.val ∧ rid.val ≤ 3)) := by
  constructor
  · unfold sign_compact
    cases h : P.ecdsa_sign_compact msg.data sk.data with
    | none => simp
    | some pr => simp
  · intro out recid h
    refine ⟨⟨MAX_COMPACT_SIGNATURE_SIZE,
      writeInto (List.replicate MAX_SIGNATURE_SIZE 0) out⟩, ⟨recid⟩, ?_, rfl, rfl, ?_⟩
    · unfold sign_compact
      rw [h]
    · exact fun hr => hr

/-- Claim C3 witness: with the concrete provider, compact signing of the
concrete message and key yields a signature of logical length 64 and a
recovery id equal to 1, hence in [0, 3]. -/
theorem C3_sign_compact_mapping_witness :
    ∃ s rid, sign_compact demoProvider demoMsg demoSk = some (.ok (s, rid)) ∧
      s.len = MAX_COMPACT_SIGNATURE_SIZE ∧ rid.val = 1 ∧
      (0 ≤ (1 : Int) ∧ (1 : Int) ≤ 3 → 0 ≤ rid.val ∧ rid.val ≤ 3) :=
  (C3_sign_compact_mapping demoProvider demoMsg demoSk).2
    (List.replicate 64 5) 1 rfl

/-- Claim C4: `sign` returns `Err(SignFailed)` exactly when the
provider's sign primitive does not return 1; when the primitive succeeds
with a reported length within `MAX_SIGNATURE_SIZE` (the provider
contract), the internal assertion does not fire and the returned
signature's logical length is the reported length, hence at most
`MAX_SIGNATURE_SIZE`. -/
theorem C4_sign_mapping (P : Provider) (msg : Message) (sk : SecretKey) :
    (sign P msg sk = some (.error Error.SignFailed) ↔
      P.ecdsa_sign msg.data sk.data = none) ∧
    (∀ out, P.ecdsa_sign msg.data sk.data = some out →
      out.length ≤ MAX_SIGNATURE_SIZE →
      ∃ s, sign P msg sk = some (.ok s) ∧ s.len = out.length ∧
        s.len ≤ MAX_SIGNATURE_SIZE) := by
  constructor
  · unfold sign
    cases h : P.ecdsa_sign msg.data sk.data with
    | none => simp
    | some out =>
      simp only [Option.some.injEq]
      constructor
      · intro hc
        split_ifs at hc
        all_goals simp_all
      · intro hc
        exact absurd hc (by simp)
  · intro out h hlen
    refine ⟨⟨out.length, writeInto (List.replicate MAX_SIGNATURE_SIZE 0) out⟩,
      ?_, rfl, hlen⟩
    unfold sign
    rw [h]
    dsimp only
    rw [if_pos hlen]

/-- Claim C4 witness: with the concrete provider, whose sign primitive
reports a 2-byte signature, `sign` succeeds with logical length 2, within
the maximum. -/
theorem C4_sign_mapping_witness :
    ∃ s, sign demoProvider demoMsg demoSk = some (.ok s) ∧ s.len = 2 ∧
      s.len ≤ MAX_SIGNATURE_SIZE :=
  (C4_sign_mapping demoProvider demoMsg demoSk).2 [7, 8] rfl (by decide)

/-- Claim C5: `recover_compact` returns `Err(InvalidSignature)` exactly
when the provider's recover primitive does not return 1; when it succeeds
and its reported length matches the requested form's encoded size (33
compressed, 65 uncompressed), the returned key has exactly that encoded
length; when the reported length mismatches, the `assert_eq!` aborts
instead of returning a recoverable error. -/
theorem C5_recover_compact_mapping (P : Provider) (msg : Message)
    (sig : List Nat) (c : Bool) (recid : RecoveryId) :
    (recover_compact P msg sig c recid = some (.error Error.InvalidSignature) ↔
      P.ecdsa_recover_compact msg.data sig recid.val c = none) ∧
    (∀ out len, P.ecdsa_recover_compact msg.data sig recid.val c = some (out, len) →
      (len = pubkeyLen c →
        ∃ pk, recover_compact P msg sig c recid = some (.ok pk) ∧
          pk.length = pubkeyLen c ∧ pk.compressed = c) ∧
      (len ≠ pubkeyLen c → recover_compact P msg sig c recid = none)) := by
  have hlen0 : ∀ out : List Nat,
      (PublicKey.mk c (writeInto (PublicKey.new c).bytes out)).length = pubkeyLen c := by
    intro out
    show (writeInto (PublicKey.new c).bytes out).length = pubkeyLen c
    rw [writeInto_length]
    simp [PublicKey.new]
  constructor
  · unfold recover_compact
    cases h : P.ecdsa_recover_compact msg.data sig recid.val c with
    | none => simp
    | some pr =>
      obtain ⟨out, len⟩ := pr
      dsimp only
      constructor
      · intro hc
        split_ifs at hc
        all_goals simp_all
      · intro hc
        exact absurd hc (by simp)
  · intro out len h
    constructor
    · intro hl
      refine ⟨⟨c, writeInto (PublicKey.new c).bytes out⟩, ?_, hlen0 out, rfl⟩
      have hp : len =
          (PublicKey.mk c (writeInto (PublicKey.new c).bytes out)).length := by
        rw [hlen0 out]
        exact hl
      unfold recover_compact
      rw [h]
      dsimp only
      rw [if_pos hp]
    · intro hl
      have hp : ¬ len =
          (PublicKey.mk c (writeInto (PublicKey.new c).bytes out)).length := by
        rw [hlen0 out]
        exact hl
      unfold recover_compact
      rw [h]
      dsimp only
      rw [if_neg hp]

/-- Claim C5 witness: with the concrete provider, recovery of a
compressed key from a 64-byte compact signature succeeds and the
recovered key's encoded length is 33 bytes. -/
theorem C5_recover_compact_mapping_witness :
    ∃ pk, recover_compact demoProvider demoMsg (List.replicate 64 5) true ⟨1⟩ =
        some (.ok pk) ∧ pk.length = pubkeyLen true ∧ pk.compressed = true :=
  (((C5_recover_compact_mapping demoProvider demoMsg (List.replicate 64 5)
    true ⟨1⟩).2 (List.replicate 33 9) 33 rfl).1) rfl

/-- Claim C7: for a keypair generated together, signing succeeds and
verifying the produced signature against the generated public key returns
`Ok(())`, under the provider contract that its sign primitive succeeds
with a length within bounds and that its verify primitive accepts the
byte buffer the engine hands back (the zero-padded backing buffer, since
`verify` forwards the full-range slice) for the derived public key. -/
theorem C7_sign_then_verify (P : Provider) (msg : Message) (sk0 : SecretKey)
    (c : Bool) (out : List Nat)
    (hsig : P.ecdsa_sign msg.data sk0.data = some out)
    (hlen : out.length ≤ MAX_SIGNATURE_SIZE)
    (hver : P.ecdsa_verify msg.data
        (writeInto (List.replicate MAX_SIGNATURE_SIZE 0) out)
        (P.derive_pubkey sk0.data c) = 1) :
    ∃ s, sign P msg (generate_keypair P sk0 c).1 = some (.ok s) ∧
      verify P msg s (generate_keypair P sk0 c).2 = some (.ok ()) := by
  refine ⟨⟨out.length, writeInto (List.replicate MAX_SIGNATURE_SIZE 0) out⟩, ?_, ?_⟩
  · show sign P msg sk0 = _
    unfold sign
    rw [hsig]
    dsimp only
    rw [if_pos hlen]
  · show verify P msg _ (PublicKey.from_secret_key P sk0 c) = _
    unfold verify verify_raw Signature.index_full PublicKey.from_secret_key
    dsimp only
    rw [if_pos hver]

/-- Claim C7 witness: with the concrete provider, the concrete message
and the concrete secret key, signing succeeds and verification of the
result against the generated public key returns `Ok(())`. -/
theorem C7_sign_then_verify_witness :
    ∃ s, sign demoProvider demoMsg (generate_keypair demoProvider demoSk true).1 =
        some (.ok s) ∧
      verify demoProvider demoMsg s (generate_keypair demoProvider demoSk true).2 =
        some (.ok ()) :=
  C7_sign_then_verify demoProvider demoMsg demoSk true [7, 8] rfl (by decide) rfl

/-- Claim C8: for a keypair generated together, if compact signing
succeeds then recovering from the produced signature's full-range slice
with the returned recovery id and the same compressed flag yields exactly
the generated public key, under the provider contract that its recover
primitive returns the derived public-key bytes with the correct reported
length for that buffer and recovery id. -/
theorem C8_compact_recover_roundtrip (P : Provider) (msg : Message)
    (sk0 : SecretKey) (c : Bool) (out : List Nat) (recid : Int)
    (hsc : P.ecdsa_sign_compact msg.data sk0.data = some (out, recid))
    (hdl : (P.derive_pubkey sk0.data c).length = pubkeyLen c)
    (hrec : P.ecdsa_recover_compact msg.data
        (writeInto (List.replicate MAX_SIGNATURE_SIZE 0) out) recid c =
        some (P.derive_pubkey sk0.data c, pubkeyLen c)) :
    ∃ s rid, sign_compact P msg (generate_keypair P sk0 c).1 = some (.ok (s, rid)) ∧
      recover_compact P msg s.index_full c rid =
        some (.ok (generate_keypair P sk0 c).2) := by
  refine ⟨⟨MAX_COMPACT_SIGNATURE_SIZE,
    writeInto (List.replicate MAX_SIGNATURE_SIZE 0) out⟩, ⟨recid⟩, ?_, ?_⟩
  · show sign_compact P msg sk0 = _
    unfold sign_compact
    rw [hsc]
  · show recover_compact P msg (writeInto (List.replicate MAX_SIGNATURE_SIZE 0) out)
      c ⟨recid⟩ = some (.ok (PublicKey.from_secret_key P sk0 c))
    have hw : writeInto (PublicKey.new c).bytes (P.derive_pubkey sk0.data c) =
        P.derive_pubkey sk0.data c := by
      show writeInto (List.replicate (pubkeyLen c) 0) _ = _
      exact writeInto_replicate_self _ _ hdl
    have hp : pubkeyLen c = (PublicKey.mk c
        (writeInto (PublicKey.new c).bytes (P.derive_pubkey sk0.data c))).length := by
      show pubkeyLen c =
        (writeInto (PublicKey.new c).bytes (P.derive_pubkey sk0.data c)).length
      rw [hw, hdl]
    unfold recover_compact
    dsimp only
    rw [hrec]
    dsimp only
    rw [if_pos hp]
    unfold PublicKey.from_secret_key
    rw [hw]

/-- Claim C8 witness: with the concrete provider, compact signing of the
concrete message and key succeeds and recovery from the produced
signature returns exactly the generated compressed public key. -/
theorem C8_compact_recover_roundtrip_witness :
    ∃ s rid,
      sign_compact demoProvider demoMsg (generate_keypair demoProvider demoSk true).1 =
        some (.ok (s, rid)) ∧
      recover_compact demoProvider demoMsg s.index_full true rid =
        some (.ok (generate_keypair demoProvider demoSk true).2) :=
  C8_compact_recover_roundtrip demoProvider demoMsg demoSk true
    (List.replicate 64 5) 1 rfl (by decide) rfl

/-- Claim C6: `Signature::from_slice` succeeds exactly on slices of length
at most `MAX_SIGNATURE_SIZE` and rejects longer slices with
`InvalidSignature`; `Message::from_slice` succeeds exactly on slices of
length `MESSAGE_SIZE` and rejects all others with `InvalidMessage`; no
partial object is returned in the error cases. -/
theorem C6_from_slice_validation (d : List Nat) :
    ((∃ s, Signature.from_slice d = .ok s) ↔ d.length ≤ MAX_SIGNATURE_SIZE) ∧
    (MAX_SIGNATURE_SIZE < d.length →
      Signature.from_slice d = .error Error.InvalidSignature) ∧
    ((∃ m, Message.from_slice d = .ok m) ↔ d.length = MESSAGE_SIZE) ∧
    (d.length ≠ MESSAGE_SIZE →
      Message.from_slice d = .error Error.InvalidMessage) := by
  unfold Signature.from_slice Message.from_slice
  refine ⟨?_, ?_, ?_, ?_⟩
  · split_ifs with h <;> simp [h]
  · intro h
    rw [if_neg (by omega)]
  · split_ifs with h <;> simp [h]
  · intro h
    rw [if_neg h]

/-- Claim C6 witness at concrete inputs: a 72-byte slice is accepted and a
73-byte slice rejected by `Signature::from_slice`; a 32-byte slice is
accepted and a 31-byte slice rejected by `Message::from_slice`. -/
theorem C6_from_slice_validation_witness :
    (∃ s, Signature.from_slice (List.replicate 72 0) = .ok s) ∧
    Signature.from_slice (List.replicate 73 0) = .error Error.InvalidSignature ∧
    (∃ m, Message.from_slice (List.replicate 32 0) = .ok m) ∧
    Message.from_slice (List.replicate 31 0) = .error Error.InvalidMessage :=
  ⟨(C6_from_slice_validation (List.replicate 72 0)).1.mpr (by decide),
   (C6_from_slice_validation (List.replicate 73 0)).2.1 (by decide),
   (C6_from_slice_validation (List.replicate 32 0)).2.2.1.mpr (by decide),
   (C6_from_slice_validation (List.replicate 31 0)).2.2.2 (by decide)⟩

/-- Claim C10: for a slice of length at most `MAX_SIGNATURE_SIZE`,
`Signature::from_slice` yields a signature whose logical length is the
slice's length, whose first bytes are the slice and whose remaining
backing-buffer bytes are zero, so the full-range slice observes the input
followed by zeros. -/
theorem C10_from_slice_contents (d : List Nat) (h : d.length ≤ MAX_SIGNATURE_SIZE) :
    ∃ s, Signature.from_slice d = .ok s ∧
      s.len = d.length ∧
      s.data.take d.length = d ∧
      s.data.drop d.length = List.replicate (MAX_SIGNATURE_SIZE - d.length) 0 ∧
      s.index_full = d ++ List.replicate (MAX_SIGNATURE_SIZE - d.length) 0 := by
  refine ⟨⟨d.length, writeInto (List.replicate MAX_SIGNATURE_SIZE 0) d⟩, ?_, rfl, ?_, ?_, ?_⟩
  · simp [Signature.from_slice, h]
  · simp [writeInto_replicate_zero _ _ h, List.take_left]
  · simp [writeInto_replicate_zero _ _ h, List.drop_left]
  · simp [Signature.index_full, writeInto_replicate_zero _ _ h]

/-- Claim C10 witness: the 3-byte slice [1, 2, 3] yields logical length 3,
the input bytes first, and 69 zero bytes after them. -/
theorem C10_from_slice_contents_witness :
    ∃ s, Signature.from_slice [1, 2, 3] = .ok s ∧
      s.len = 3 ∧
      s.data.take 3 = [1, 2, 3] ∧
      s.data.drop 3 = List.replicate 69 0 ∧
      s.index_full = [1, 2, 3] ++ List.replicate 69 0 :=
  C10_from_slice_contents [1, 2, 3] (by decide)

/-- Claim C1 is a code bug: the full-range slice `sig[..]` returns the
whole `MAX_SIGNATURE_SIZE`-byte backing buffer, ignoring the logical
length, so `verify` passes the zero-padded 72-byte buffer to
`verify_raw`, not the first `sig.len()` bytes.  Evaluated at the failing
input `Signature::from_slice(&[170])`: the logical length is 1 but the
full-range slice has 72 bytes, and `verify` on this signature coincides
with `verify_raw` on the full padded buffer for every provider. -/
theorem C1_rangefull_bug_eval :
    Signature.from_slice [170] = .ok ⟨1, 170 :: List.replicate 71 0⟩ ∧
    (Signature.mk 1 (170 :: List.replicate 71 0)).len = 1 ∧
    (Signature.mk 1 (170 :: List.replicate 71 0)).index_full.length = 72 ∧
    ∀ P msg pk,
      verify P msg ⟨1, 170 :: List.replicate 71 0⟩ pk =
        verify_raw P msg (170 :: List.replicate 71 0) pk := by
  refine ⟨?_, rfl, by decide, fun P msg pk => rfl⟩
  unfold Signature.from_slice
  rw [if_pos (by decide), writeInto_replicate_zero MAX_SIGNATURE_SIZE [170] (by decide)]
  rfl

end Secp
